import Mathlib

/-!
Verification of the Observer pattern implementation in
src/observer/observer.py.

The registry holds observer references compared by Python object identity;
we model an observer reference as a numeric identity (`Obs`).  Print side
effects are incidental (the spec excludes them from the contract); each
observer's observable "reaction" is modelled as the Boolean its predicate
evaluates to, and `notify` is modelled by the trace of update invocations:
the list of (observer, state seen) pairs in invocation order.
-/

/-- An observer reference: Python compares registry entries by object
identity, modelled as a numeric identity. -/
abbrev Obs := Nat

/-- The demonstration's observer_a instance. -/
def observer_a : Obs := 0

/-- The demonstration's observer_b instance. -/
def observer_b : Obs := 1

/-- A single ConcreteSubject: the optional integer `_state` (None until the
first mutation) and the ordered observer registry `_observers`. -/
structure ConcreteSubject where
  _state : Option Int
  _observers : List Obs
deriving DecidableEq

namespace ConcreteSubject

/-- A fresh subject: state None, empty registry. -/
def init : ConcreteSubject := { _state := none, _observers := [] }

/-- The read-only `state` property: returns `self._state`. -/
def state (s : ConcreteSubject) : Option Int := s._state

/-- `attach`: `self._observers.append(o)` — appends o at the end of the
registry (the print is incidental). -/
def attach (o : Obs) (s : ConcreteSubject) : ConcreteSubject :=
  { s with _observers := s._observers ++ [o] }

/-- `detach`: `self._observers.remove(o)` — removes the first occurrence of o
when present; otherwise raises ValueError and leaves the subject unchanged.
The result pairs the raised-or-not outcome with the subject afterwards. -/
def detach (o : Obs) (s : ConcreteSubject) : Except Unit Unit × ConcreteSubject :=
  if o ∈ s._observers then
    (.ok (), { s with _observers := s._observers.erase o })
  else
    (.error (), s)

/-- `notify`: `for observers in self._observers: observers.update(self)` —
one update call per registry entry, in registry order, each receiving the
subject and hence seeing the current state.  The trace of (observer, state
seen) pairs records these calls. -/
def notify (s : ConcreteSubject) : List (Obs × Option Int) :=
  s._observers.map (fun o => (o, s._state))

/-- `notify` mutates nothing: the subject after a notify paired with the
trace of update calls it makes. -/
def notifyRun (s : ConcreteSubject) : ConcreteSubject × List (Obs × Option Int) :=
  (s, notify s)

/-- `randrange(lo, hi)`: an integer in the half-open range [lo, hi), the
draw d of the random source selecting which. -/
def randrange (lo hi : Int) (d : Nat) : Int :=
  lo + Int.ofNat (d % (hi - lo).toNat)

/-- `some_business_logic`: `self._state = randrange(0, 10)` then
`self.notify()`.  Returns the subject afterwards and the notify trace. -/
def some_business_logic (d : Nat) (s : ConcreteSubject) :
    ConcreteSubject × List (Obs × Option Int) :=
  let s2 := { s with _state := some (randrange 0 10 d) }
  (s2, notify s2)

/-- A sequence of attach calls, performed left to right. -/
def attachAll (os : List Obs) (s : ConcreteSubject) : ConcreteSubject :=
  os.foldl (fun t o => attach o t) s

end ConcreteSubject

/-- Python comparison `x < n` where x is Optional[int]: `None < int` raises
TypeError. -/
def pyLt (x : Option Int) (n : Int) : Except Unit Bool :=
  match x with
  | none => .error ()
  | some v => .ok (decide (v < n))

/-- Python comparison `x >= n` where x is Optional[int]: `None >= int` raises
TypeError. -/
def pyGe (x : Option Int) (n : Int) : Except Unit Bool :=
  match x with
  | none => .error ()
  | some v => .ok (decide (n ≤ v))

/-- Python equality `x == n` where x is Optional[int]: `None == int` is False
and raises nothing. -/
def pyEq (x : Option Int) (n : Int) : Bool :=
  match x with
  | none => false
  | some v => decide (v = n)

/-- ConcreteObserverA.update: reacts when `subject.state < 3`. -/
def updateA (st : Option Int) : Except Unit Bool := pyLt st 3

/-- ConcreteObserverB.update: reacts when
`subject.state == 0 or subject.state >= 2` (short-circuit or). -/
def updateB (st : Option Int) : Except Unit Bool :=
  if pyEq st 0 then .ok true else pyGe st 2

/-- Dispatch of update over the demonstration's two observer instances. -/
def update (o : Obs) (st : Option Int) : Except Unit Bool :=
  if o = observer_a then updateA st else updateB st

/-- The source declares the registry as a class attribute,
`_observers: List[Observer] = []` (observer.py line 38).  `attach` mutates
that list in place through `self._observers.append`, and no instance
attribute named `_observers` is ever created, so every ConcreteSubject
instance reads and writes the one class-level list.  `self._state = ...`
in contrast creates a per-instance attribute on first assignment.  A world
of two ConcreteSubject instances under these semantics: -/
structure TwoSubjects where
  classObservers : List Obs
  state1 : Option Int
  state2 : Option Int
deriving DecidableEq

/-- Two freshly constructed subjects. -/
def TwoSubjects.init : TwoSubjects := ⟨[], none, none⟩

/-- attach on the first subject: appends to the class-level list. -/
def TwoSubjects.attach1 (o : Obs) (w : TwoSubjects) : TwoSubjects :=
  { w with classObservers := w.classObservers ++ [o] }

/-- notify on the second subject: iterates the class-level list, each update
seeing the second subject's state. -/
def TwoSubjects.notify2 (w : TwoSubjects) : List (Obs × Option Int) :=
  w.classObservers.map (fun o => (o, w.state2))

/-- Whether an update call completed without raising. -/
def completesOk (e : Except Unit Bool) : Bool :=
  match e with
  | .ok _ => true
  | .error _ => false

/-- The registry after a sequence of attach calls is the previous registry
followed by the attached observers in call order. -/
theorem attachAll_observers (os : List Obs) (s : ConcreteSubject) :
    (ConcreteSubject.attachAll os s)._observers = s._observers ++ os := by
  induction os generalizing s with
  | nil => simp [ConcreteSubject.attachAll]
  | cons a tl ih =>
      rw [show ConcreteSubject.attachAll (a :: tl) s
            = ConcreteSubject.attachAll tl (ConcreteSubject.attach a s) from rfl,
          ih]
      simp [ConcreteSubject.attach]

/-- The observers receiving update during a notify are exactly the registry,
in order. -/
theorem notify_map_fst (s : ConcreteSubject) :
    (s.notify).map Prod.fst = s._observers := by
  simp [ConcreteSubject.notify, List.map_map]
  exact List.map_id s._observers

/-- Claim C1: for every ConcreteSubject and every sequence of attach calls
(duplicates permitted), a subsequent notify invokes update exactly once per
registry entry, in attach-call (FIFO) order; attaching the same observer
twice yields two update calls per notify cycle. -/
theorem C1_notify_fifo (s : ConcreteSubject) (os : List Obs) :
    ((ConcreteSubject.attachAll os s).notify).map Prod.fst
      = s._observers ++ os ∧
    ∀ o : Obs,
      (((ConcreteSubject.attachAll [o, o] ConcreteSubject.init).notify).map
          Prod.fst).count o = 2 := by
  constructor
  · rw [notify_map_fst, attachAll_observers]
  · intro o
    rw [notify_map_fst, attachAll_observers]
    simp [ConcreteSubject.init]

/-- Claim C2: within a single notify cycle triggered by some_business_logic,
every update call observes the same state value, namely the value assigned
by the immediately preceding mutation (observers are pure in this model, so
the precondition that no observer mutates the subject holds). -/
theorem C2_snapshot_consistency (s : ConcreteSubject) (d : Nat)
    (p : Obs × Option Int)
    (hp : p ∈ (ConcreteSubject.some_business_logic d s).2) :
    p.2 = (ConcreteSubject.some_business_logic d s).1._state ∧
    (ConcreteSubject.some_business_logic d s).1._state
      = some (ConcreteSubject.randrange 0 10 d) := by
  refine ⟨?_, rfl⟩
  simp only [ConcreteSubject.some_business_logic, ConcreteSubject.notify,
    List.mem_map] at hp
  obtain ⟨o, ho, hEq⟩ := hp
  rw [← hEq]
  rfl

/-- Witness for C2 at a concrete input. -/
theorem C2_snapshot_consistency_witness :
    ((observer_a, some (0 : Int)) : Obs × Option Int)
        ∈ (ConcreteSubject.some_business_logic 0
            (ConcreteSubject.attach observer_a ConcreteSubject.init)).2 ∧
    ((observer_a, some (0 : Int)) : Obs × Option Int).2
        = (ConcreteSubject.some_business_logic 0
            (ConcreteSubject.attach observer_a ConcreteSubject.init)).1._state :=
  ⟨by decide,
   (C2_snapshot_consistency
      (ConcreteSubject.attach observer_a ConcreteSubject.init) 0
      (observer_a, some 0) (by decide)).1⟩

/-- Claim C3 (code bug): the registry is the class-level list
`_observers: List[Observer] = []`, shared by every ConcreteSubject instance,
so attaching an observer to one subject changes the notification behaviour
of another: after attaching observer_a to subject 1 only, subject 2's notify
invokes observer_a, where exclusive per-instance ownership requires subject
2's notify to invoke nothing, as it does before the attach. -/
theorem C3_registry_shared_across_instances :
    (TwoSubjects.notify2 (TwoSubjects.attach1 observer_a TwoSubjects.init)).map
        Prod.fst = [observer_a] ∧
    TwoSubjects.notify2 TwoSubjects.init = [] :=
  ⟨rfl, rfl⟩

/-- Claim C4 counterexample: with observer_a attached twice (registry
[observer_a, observer_a]), detach removes one occurrence yet a subsequent
notify still invokes update on observer_a, refuting the claim that after a
detach notify never invokes the detached observer. -/
theorem C4_counterexample :
    (ConcreteSubject.detach observer_a
        { _state := none, _observers := [observer_a, observer_a] }).2._observers
      = [observer_a] ∧
    observer_a ∈ ((ConcreteSubject.detach observer_a
        { _state := none, _observers := [observer_a, observer_a] }).2.notify).map
        Prod.fst := by
  decide

/-- Claim C4 (amended): when the registry contains o, detach(o) succeeds and
removes exactly one occurrence of o, the earliest-attached one; subsequent
notify calls never invoke update on o provided o no longer occurs in the
registry afterwards (in particular whenever o had been attached exactly
once). -/
theorem C4_detach_removes_earliest (s : ConcreteSubject) (o : Obs)
    (h : o ∈ s._observers) :
    (ConcreteSubject.detach o s).1 = .ok () ∧
    (ConcreteSubject.detach o s).2._observers = s._observers.erase o ∧
    (∃ l1 l2, o ∉ l1 ∧ s._observers = l1 ++ o :: l2 ∧
      s._observers.erase o = l1 ++ l2) ∧
    (o ∉ s._observers.erase o →
      o ∉ ((ConcreteSubject.detach o s).2.notify).map Prod.fst) := by
  refine ⟨by simp [ConcreteSubject.detach, h], by simp [ConcreteSubject.detach, h],
    List.exists_erase_eq h, ?_⟩
  intro hno
  rw [show (ConcreteSubject.detach o s).2
        = { s with _observers := s._observers.erase o } from by
      simp [ConcreteSubject.detach, h]]
  rw [notify_map_fst]
  exact hno

/-- Witness for C4 (amended) at a concrete input. -/
theorem C4_detach_removes_earliest_witness :
    observer_a ∈ ([observer_a] : List Obs) ∧
    (ConcreteSubject.detach observer_a
        { _state := none, _observers := [observer_a] }).1 = .ok () :=
  ⟨by decide,
   (C4_detach_removes_earliest
      { _state := none, _observers := [observer_a] } observer_a (by decide)).1⟩

/-- Claim C5: when the registry does not contain o, detach(o) raises the
not-found error (list.remove's ValueError) and leaves both the registry and
the state unchanged: the subject after the raising call equals the subject
before it. -/
theorem C5_detach_missing_raises (s : ConcreteSubject) (o : Obs)
    (h : o ∉ s._observers) :
    (ConcreteSubject.detach o s).1 = .error () ∧
    (ConcreteSubject.detach o s).2 = s := by
  simp [ConcreteSubject.detach, h]

/-- Witness for C5 at a concrete input. -/
theorem C5_detach_missing_raises_witness :
    observer_a ∉ ConcreteSubject.init._observers ∧
    (ConcreteSubject.detach observer_a ConcreteSubject.init).2
      = ConcreteSubject.init :=
  ⟨by decide,
   (C5_detach_missing_raises ConcreteSubject.init observer_a (by decide)).2⟩

/-- Claim C6: ConcreteObserverA reacts iff the state is < 3 and
ConcreteObserverB reacts iff the state is == 0 or >= 2; scenarios: forced
state 1 → A reacts, B does not; state 0 → both react; state 5 → only B
reacts; after detaching A, forced state 2 → only B is invoked and reacts. -/
theorem C6_reaction_predicates :
    (∀ v : Int, updateA (some v) = .ok (decide (v < 3))) ∧
    (∀ v : Int, updateB (some v) = .ok (decide (v = 0 ∨ 2 ≤ v))) ∧
    (updateA (some 1) = .ok true ∧ updateB (some 1) = .ok false) ∧
    (updateA (some 0) = .ok true ∧ updateB (some 0) = .ok true) ∧
    (updateA (some 5) = .ok false ∧ updateB (some 5) = .ok true) ∧
    ((ConcreteSubject.some_business_logic 2
        (ConcreteSubject.detach observer_a
          (ConcreteSubject.attachAll [observer_a, observer_b]
            ConcreteSubject.init)).2).2
      = [(observer_b, some 2)] ∧
     observer_a ∉ ((ConcreteSubject.some_business_logic 2
        (ConcreteSubject.detach observer_a
          (ConcreteSubject.attachAll [observer_a, observer_b]
            ConcreteSubject.init)).2).2).map Prod.fst ∧
     update observer_b (some 2) = .ok true) := by
  refine ⟨fun v => rfl, ?_, ⟨rfl, rfl⟩, ⟨rfl, rfl⟩, ⟨rfl, rfl⟩, rfl, by decide, rfl⟩
  intro v
  by_cases h0 : v = 0
  · simp [updateB, pyEq, pyGe, h0]
  · simp [updateB, pyEq, pyGe, h0]

/-- Claim C7: every invocation of some_business_logic produces a state value
in the half-open range [0, 10), drawn from the random source, assigned to
the state before notify is called, so that the whole notify trace already
sees it. -/
theorem C7_state_in_range (s : ConcreteSubject) (d : Nat) :
    0 ≤ ConcreteSubject.randrange 0 10 d ∧
    ConcreteSubject.randrange 0 10 d < 10 ∧
    (ConcreteSubject.some_business_logic d s).1._state
      = some (ConcreteSubject.randrange 0 10 d) ∧
    (ConcreteSubject.some_business_logic d s).2
      = s._observers.map (fun o => (o, some (ConcreteSubject.randrange 0 10 d))) := by
  refine ⟨?_, ?_, rfl, rfl⟩
  · simp [ConcreteSubject.randrange]
    omega
  · have h : d % 10 < 10 := Nat.mod_lt _ (by decide)
    simp [ConcreteSubject.randrange]
    omega

/-- Claim C8: some_business_logic is the sole mutator of the state: attach,
detach and notify leave the state unchanged, and the state accessor returns
the current snapshot (the raw `_state` field, without raising), which is
None before the first mutation. -/
theorem C8_sole_state_mutator (s : ConcreteSubject) (o : Obs) :
    (ConcreteSubject.attach o s).state = s.state ∧
    ((ConcreteSubject.detach o s).2).state = s.state ∧
    (ConcreteSubject.notifyRun s).1 = s ∧
    ConcreteSubject.state s = s._state ∧
    ConcreteSubject.init.state = none := by
  refine ⟨rfl, ?_, rfl, rfl, rfl⟩
  by_cases h : o ∈ s._observers <;>
    simp [ConcreteSubject.detach, ConcreteSubject.state, h]

/-- Claim C9 counterexample: with absent state (None), update on
ConcreteObserverA and on ConcreteObserverB does not complete without error. -/
theorem C9_counterexample :
    completesOk (updateA none) = false ∧ completesOk (updateB none) = false :=
  ⟨rfl, rfl⟩

/-- Claim C9 (amended): for a subject whose state is absent, invoking update
on ConcreteObserverA or ConcreteObserverB raises a TypeError: the `< 3` and
`>= 2` comparisons against None are error branches (only the `== 0`
comparison tolerates None, evaluating to False without raising). -/
theorem C9_absent_state_raises :
    updateA none = .error () ∧ updateB none = .error () ∧
    pyEq none 0 = false ∧ pyLt none 3 = .error () ∧ pyGe none 2 = .error () :=
  ⟨rfl, rfl, rfl, rfl, rfl⟩

/-- Claim C10: when o is not in the registry, attach(o) followed by detach(o)
restores the subject exactly (round trip); the restoration is not guaranteed
when o already occurs: from registry [observer_a, observer_b], attaching and
then detaching observer_a yields [observer_b, observer_a]. -/
theorem C10_attach_detach_roundtrip (s : ConcreteSubject) (o : Obs)
    (h : o ∉ s._observers) :
    (ConcreteSubject.detach o (ConcreteSubject.attach o s)).2 = s ∧
    (ConcreteSubject.detach observer_a (ConcreteSubject.attach observer_a
        { _state := none, _observers := [observer_a, observer_b] })).2._observers
      = [observer_b, observer_a] := by
  refine ⟨?_, by decide⟩
  obtain ⟨st, obs⟩ := s
  have hmem : o ∈ obs ++ [o] := by simp
  simp only [ConcreteSubject.attach, ConcreteSubject.detach] at *
  rw [if_pos hmem]
  simp only [ConcreteSubject.mk.injEq]
  refine ⟨by trivial, ?_⟩
  rw [List.erase_append_right _ h]
  simp

/-- Witness for C10 at a concrete input. -/
theorem C10_attach_detach_roundtrip_witness :
    observer_a ∉ ConcreteSubject.init._observers ∧
    (ConcreteSubject.detach observer_a
        (ConcreteSubject.attach observer_a ConcreteSubject.init)).2
      = ConcreteSubject.init :=
  ⟨by decide,
   (C10_attach_detach_roundtrip ConcreteSubject.init observer_a (by decide)).1⟩
